import Mathlib

/-!
Shallow embedding of the Vision-Ai presence state machine
(src/jarvis/services/room_presence_service.py) and of the MQTT bridge
(src/jarvis/services/mqtt_bridge_service.py), together with theorems
settling the frozen claims about them.

Timestamps (Python floats from time.time()) are modelled as rationals.
External collaborators (camera, face matcher, recorder, photo capture,
JSON decoding, MQTT transport) are abstracted exactly at the interface
the source calls them through.
-/

namespace VisionAi

/-- A recognized face as produced by face_service.recognize_faces: a dict
whose "role" and "name" keys may be absent (modelled as Option). -/
structure Face where
  role : Option String
  name : Option String
deriving Repr, DecidableEq

/-- settings.OWNER_NAME default (src/jarvis/config.py line 16). -/
def OWNER_NAME : String := "Sir"

/-- RoomPresenceService._stability_count (line 75): need N consecutive same results. -/
def STABILITY_COUNT : Nat := 3

/-- settings.GREETING_COOLDOWN default, seconds (src/jarvis/config.py line 57). -/
def GREETING_COOLDOWN : ℚ := 1800

/-- PresenceState enum (room_presence_service.py lines 24-28). -/
inductive PresenceState where
  | EMPTY
  | OWNER_PRESENT
  | UNKNOWN_PERSON
  | MULTIPLE_PEOPLE
deriving Repr, DecidableEq

/-- RoomState dataclass (lines 41-49). -/
structure RoomState where
  presence : PresenceState := .EMPTY
  owner_detected : Bool := false
  num_faces : Nat := 0
  last_detection_time : ℚ := 0
  owner_name : Option String := none
  intruder_active : Bool := false
  empty_since : ℚ := 0
deriving Repr, DecidableEq

/-- The mutable fields of RoomPresenceService that the presence tick reads
or writes (lines 56-75): the RoomState, the three run-length counters, the
greeting cooldown tracker, the recording flag and the intruder record list
(kept as a count; the records' photo/video paths are produced by external
collaborators and no claim depends on them). -/
structure ServiceState where
  state : RoomState := {}
  consecutive_empty : Nat := 0
  consecutive_owner : Nat := 0
  consecutive_unknown : Nat := 0
  last_owner_greeting : ℚ := 0
  recording_intruder : Bool := false
  intruder_records : Nat := 0
deriving Repr, DecidableEq

/-- The events a presence tick can emit through _emit (payload fields kept
where a claim mentions them). -/
inductive Event where
  | presence_changed (previous current : PresenceState) (num_faces : Nat)
  | owner_entered (name : Option String) (should_greet : Bool)
  | owner_left
  | intruder_detected (num_faces : Nat)
  | room_empty
deriving Repr, DecidableEq

/-- Line 147: info.get("role") == "owner". -/
def is_owner_face (f : Face) : Bool := f.role == some "owner"

/-- Line 149: the elif arm — not an owner face, and
info.get("name", "Unknown") == "Unknown". -/
def is_unknown_face (f : Face) : Bool :=
  !(f.role == some "owner") && (f.name.getD "Unknown" == "Unknown")

/-- _on_owner_entered (lines 210-227): compute should_greet from the
greeting cooldown, stop any intruder recording, emit owner_entered, and
update the greeting time only when should_greet is true. -/
def on_owner_entered (now : ℚ) (s : ServiceState) : ServiceState × List Event :=
  let should_greet : Bool := decide (now - s.last_owner_greeting > GREETING_COOLDOWN)
  let s1 := if s.recording_intruder then { s with recording_intruder := false } else s
  let evs := [Event.owner_entered s1.state.owner_name should_greet]
  let s2 := if should_greet then { s1 with last_owner_greeting := now } else s1
  (s2, evs)

/-- _on_room_empty (lines 229-241): stop any intruder recording, clear
intruder_active, emit room_empty then owner_left. -/
def on_room_empty (s : ServiceState) : ServiceState × List Event :=
  let s1 := if s.recording_intruder then { s with recording_intruder := false } else s
  let s2 := { s1 with state := { s1.state with intruder_active := false } }
  (s2, [Event.room_empty, Event.owner_left])

/-- _on_intruder_detected (lines 243-267): capture a photo (external),
start recording if not already, append an IntruderRecord, emit
intruder_detected. -/
def on_intruder_detected (num_faces : Nat) (s : ServiceState) : ServiceState × List Event :=
  let s1 := if s.recording_intruder then s else { s with recording_intruder := true }
  let s2 := { s1 with intruder_records := s1.intruder_records + 1 }
  (s2, [Event.intruder_detected num_faces])

/-- Counter update section of _check_presence (lines 152-165). -/
def update_counters (recognized : List Face) (s : ServiceState) : ServiceState :=
  let num_faces := recognized.length
  let owner_found := recognized.any is_owner_face
  let unknown_found := recognized.any is_unknown_face
  if num_faces = 0 then
    { s with consecutive_empty := s.consecutive_empty + 1, consecutive_owner := 0, consecutive_unknown := 0 }
  else if owner_found then
    let s1 := { s with consecutive_owner := s.consecutive_owner + 1, consecutive_empty := 0 }
    if unknown_found then s1 else { s1 with consecutive_unknown := 0 }
  else if unknown_found then
    { s with consecutive_unknown := s.consecutive_unknown + 1, consecutive_empty := 0, consecutive_owner := 0 }
  else s

/-- Transition section of _check_presence (lines 170-198). -/
def transition (recognized : List Face) (now : ℚ) (s : ServiceState) :
    ServiceState × List Event :=
  let num_faces := recognized.length
  let unknown_found := recognized.any is_unknown_face
  if s.consecutive_empty ≥ STABILITY_COUNT then
    if s.state.presence ≠ PresenceState.EMPTY then
      let st := { s.state with presence := PresenceState.EMPTY, owner_detected := false, num_faces := 0, empty_since := now }
      on_room_empty { s with state := st }
    else (s, [])
  else if s.consecutive_owner ≥ STABILITY_COUNT then
    let s1 := { s with state := { s.state with num_faces := num_faces, last_detection_time := now } }
    if num_faces > 1 ∧ unknown_found = true then
      ({ s1 with state := { s1.state with presence := PresenceState.MULTIPLE_PEOPLE, owner_detected := true } }, [])
    else if s1.state.owner_detected = false then
      let oname := ((recognized.find? is_owner_face).map (fun f => f.name.getD OWNER_NAME)).getD OWNER_NAME
      let st := { s1.state with presence := PresenceState.OWNER_PRESENT, owner_detected := true, owner_name := some oname }
      on_owner_entered now { s1 with state := st }
    else (s1, [])
  else if s.consecutive_unknown ≥ STABILITY_COUNT then
    if s.state.owner_detected = false then
      let st := { s.state with presence := PresenceState.UNKNOWN_PERSON, num_faces := num_faces, last_detection_time := now, intruder_active := true }
      on_intruder_detected num_faces { s with state := st }
    else (s, [])
  else (s, [])

/-- _check_presence (lines 132-205): skip the tick when there is no frame;
otherwise update the counters, run the transition logic, and append a
presence_changed event when the resolved presence differs from before. -/
def check_presence (frame : Option (List Face)) (now : ℚ) (s : ServiceState) :
    ServiceState × List Event :=
  match frame with
  | none => (s, [])
  | some recognized =>
    let s1 := update_counters recognized s
    let prev := s1.state.presence
    let r := transition recognized now s1
    (r.1, if r.1.state.presence ≠ prev then
        r.2 ++ [Event.presence_changed prev r.1.state.presence recognized.length]
      else r.2)

/-- The observable outcomes of one pass of _monitor_loop (lines 120-130):
the camera returned no frame, the capture/recognition call raised (the
exception is caught by the loop, which logs and continues), or a list of
recognized faces was produced. -/
inductive TickInput where
  | noFrame
  | failure
  | frame (faces : List Face)
deriving Repr, DecidableEq

/-- One iteration of _monitor_loop: on a raised exception the loop's
except-branch leaves all state untouched and emits nothing; otherwise the
tick is _check_presence. -/
def monitor_tick (input : TickInput) (now : ℚ) (s : ServiceState) :
    ServiceState × List Event :=
  match input with
  | .noFrame => check_presence none now s
  | .failure => (s, [])
  | .frame faces => check_presence (some faces) now s

/-- Run a list of (input, time) ticks, collecting the events of each tick. -/
def run_ticks (ticks : List (TickInput × ℚ)) (s : ServiceState) :
    ServiceState × List (List Event) :=
  match ticks with
  | [] => (s, [])
  | (i, t) :: rest =>
    let r := monitor_tick i t s
    let r2 := run_ticks rest r.1
    (r2.1, r.2 :: r2.2)

/-- A concrete owner face. -/
def ownerFace : Face := { role := some "owner", name := some "Alice" }

/-- A concrete unrecognized face. -/
def unknownFace : Face := { role := none, name := some "Unknown" }

/-- A concrete recognized-but-not-owner face. -/
def knownFace : Face := { role := some "known", name := some "Bob" }

/-! ## MQTT bridge (src/jarvis/services/mqtt_bridge_service.py) -/

/-- DeviceState dataclass (lines 23-39). The free-form `data` payload map
is abstracted as a list of string pairs. -/
structure DeviceState where
  device_id : String
  device_type : String := "unknown"
  ip : String := ""
  firmware : String := ""
  online : Bool := false
  last_heartbeat : ℚ := 0
  uptime : Int := 0
  rssi : Int := 0
  free_heap : Int := 0
  data : List (String × String) := []
deriving Repr, DecidableEq

/-- DeviceState.is_stale (lines 37-39): more than 45 seconds (3 missed
heartbeats) since the last heartbeat. `now` stands for time.time(). -/
def DeviceState.is_stale (d : DeviceState) (now : ℚ) : Bool :=
  now - d.last_heartbeat > 45

/-- The dict returned by get_device_state (lines 453-464). -/
structure DeviceSnapshot where
  device_id : String
  type : String
  online : Bool
  ip : String
  firmware : String
  uptime : Int
  rssi : Int
  free_heap : Int
  last_heartbeat : ℚ
  data : List (String × String)
deriving Repr, DecidableEq

/-- The dict stored per device by get_all_devices (lines 470-478). -/
structure DeviceSummary where
  device_id : String
  type : String
  online : Bool
  ip : String
  firmware : String
  last_heartbeat : ℚ
  uptime : Int
deriving Repr, DecidableEq

/-- get_device_state (lines 450-465): look the device up and derive
`online` as the stored flag conjoined with freshness. The devices dict is
modelled as an association list. -/
def get_device_state (now : ℚ) (devices : List (String × DeviceState)) (device_id : String) : Option DeviceSnapshot :=
  match devices.lookup device_id with
  | some dev => some
      { device_id := dev.device_id, type := dev.device_type,
        online := dev.online && !(dev.is_stale now),
        ip := dev.ip, firmware := dev.firmware, uptime := dev.uptime,
        rssi := dev.rssi, free_heap := dev.free_heap,
        last_heartbeat := dev.last_heartbeat, data := dev.data }
  | none => none

/-- get_all_devices (lines 467-479). -/
def get_all_devices (now : ℚ) (devices : List (String × DeviceState)) : List (String × DeviceSummary) :=
  devices.map (fun p =>
    (p.1, { device_id := p.2.device_id, type := p.2.device_type,
            online := p.2.online && !(p.2.is_stale now),
            ip := p.2.ip, firmware := p.2.firmware,
            last_heartbeat := p.2.last_heartbeat, uptime := p.2.uptime }))

/-- The stats counters dict (lines 95-102); start_time is kept separately
by the claims-irrelevant getters and omitted. -/
structure BridgeStats where
  messages_received : Nat := 0
  messages_sent : Nat := 0
  events_routed : Nat := 0
  reconnections : Nat := 0
  errors : Nat := 0
deriving Repr, DecidableEq

/-- A registered handler: an identity plus whether invoking it raises.
Only synchronous handlers are modelled; async ones are scheduled
fire-and-forget by _fire_event and their exceptions never reach it. -/
structure Handler where
  hid : Nat
  throws : Bool
deriving Repr, DecidableEq

/-- _fire_event (lines 111-123): invoke every handler in registration
order; a raising handler increments `errors`, a returning one increments
`events_routed`; nothing propagates (the function is total). The second
component records which handlers were invoked, in order. -/
def fire_event (handlers : List Handler) (stats : BridgeStats) : BridgeStats × List Nat :=
  handlers.foldl
    (fun acc h =>
      if h.throws then ({ acc.1 with errors := acc.1.errors + 1 }, acc.2 ++ [h.hid])
      else ({ acc.1 with events_routed := acc.1.events_routed + 1 }, acc.2 ++ [h.hid]))
    (stats, [])

/-- register_handler (lines 104-109) over an association-list registry. -/
def register_handler (reg : List (String × List Handler)) (event_type : String) (h : Handler) : List (String × List Handler) :=
  match reg.lookup event_type with
  | some hs => (event_type, hs ++ [h]) :: reg.eraseP (fun p => p.1 == event_type)
  | none => (event_type, [h]) :: reg

/-- A message-log entry (lines 242-246); the parsed JSON value is
abstracted as an opaque string. -/
inductive MsgData where
  | json (v : String)
  | raw (payload : String)
deriving Repr, DecidableEq

/-- One entry of _message_log. -/
structure LogEntry where
  topic : String
  data : MsgData
  timestamp : ℚ
deriving Repr, DecidableEq

/-- self._max_log_size (line 92). -/
def MAX_LOG_SIZE : Nat := 500

/-- Lines 236-239: json.loads (abstracted as the external `decode`) with
the JSONDecodeError fallback wrapping the raw payload. -/
def mk_log_entry (decode : String → Option String) (topic payload : String) (now : ℚ) : LogEntry :=
  { topic := topic,
    data := match decode payload with
      | some v => MsgData.json v
      | none => MsgData.raw payload,
    timestamp := now }

/-- Lines 247-249: append, then keep only the newest MAX_LOG_SIZE entries. -/
def append_log (log : List LogEntry) (e : LogEntry) : List LogEntry :=
  let log1 := log ++ [e]
  if log1.length > MAX_LOG_SIZE then log1.drop (log1.length - MAX_LOG_SIZE) else log1

/-- The log-and-stats part of _on_message (lines 228-249): count the
message, build its entry (decoding or wrapping the payload) and append it
to the bounded log. The topic routing that follows (lines 252-281) does
not touch the log. -/
def on_message_log (decode : String → Option String) (log : List LogEntry) (stats : BridgeStats) (topic payload : String) (now : ℚ) : List LogEntry × BridgeStats :=
  (append_log log (mk_log_entry decode topic payload now),
   { stats with messages_received := stats.messages_received + 1 })

/-! ## Auxiliary definitions used to state claims -/

/-- The four classifications a tick can have under the branch structure of
lines 152-165: no faces; an owner face present; no owner but an unknown
face; only recognized non-owner faces. -/
inductive TickClass where
  | empty
  | ownerC
  | unknownC
  | knownOnly
deriving Repr, DecidableEq

/-- Classify a tick by the branch of lines 152-165 it takes. -/
def classify (recognized : List Face) : TickClass :=
  if recognized.length = 0 then .empty
  else if recognized.any is_owner_face then .ownerC
  else if recognized.any is_unknown_face then .unknownC
  else .knownOnly

/-- The counter update as amended claim C4 describes it, on
(consecutiveEmpty, consecutiveOwner, consecutiveUnknown) triples: the
matching counter is incremented, but a tick with both an owner and an
unknown face preserves consecutiveUnknown, and a tick with only
recognized non-owner faces updates nothing. -/
def amendedCounterUpdate (recognized : List Face) (c : Nat × Nat × Nat) : Nat × Nat × Nat :=
  match classify recognized with
  | .empty => (c.1 + 1, 0, 0)
  | .ownerC => (0, c.2.1 + 1, if recognized.any is_unknown_face then c.2.2 else 0)
  | .unknownC => (0, 0, c.2.2 + 1)
  | .knownOnly => c

/-- Extract the should_greet flags from a list of emitted events. -/
def greet_flags (evs : List Event) : List Bool :=
  evs.filterMap (fun e =>
    match e with
    | .owner_entered _ g => some g
    | _ => none)

/-- Run _on_owner_entered once per listed time, threading the service
state, and record each emitted should_greet flag. -/
def owner_entered_trace (ts : List ℚ) (s : ServiceState) : List Bool :=
  match ts with
  | [] => []
  | t :: rest =>
    let r := on_owner_entered t s
    greet_flags r.2 ++ owner_entered_trace rest r.1

/-- The last_owner_greeting value after a sequence of _on_owner_entered
calls at the listed times, starting from greeting time g. -/
def greet_after (ts : List ℚ) (g : ℚ) : ℚ :=
  ts.foldl (fun g t => if t - g > GREETING_COOLDOWN then t else g) g

/-- A tick whose frame holds one unrecognized face. -/
def tickU : TickInput × ℚ := (.frame [unknownFace], 0)

/-- A tick whose frame holds an owner face and an unrecognized face. -/
def tickOU : TickInput × ℚ := (.frame [ownerFace, unknownFace], 0)

/-- A tick whose frame holds no faces. -/
def tickE : TickInput × ℚ := (.frame [], 0)

/-- A concrete device whose last heartbeat is at time 0. -/
def camDev : DeviceState :=
  { device_id := "cam-1", device_type := "camera", online := true, last_heartbeat := 0 }

/-! ## Helper lemmas -/

theorem fire_event_foldl (handlers : List Handler) (st : BridgeStats) (acc : List Nat) :
    handlers.foldl
      (fun acc h =>
        if h.throws then ({ acc.1 with errors := acc.1.errors + 1 }, acc.2 ++ [h.hid])
        else ({ acc.1 with events_routed := acc.1.events_routed + 1 }, acc.2 ++ [h.hid]))
      (st, acc) =
      ({ st with errors := st.errors + (handlers.filter (fun h => h.throws)).length,
                 events_routed := st.events_routed + (handlers.filter (fun h => !h.throws)).length },
       acc ++ handlers.map Handler.hid) := by
  induction handlers generalizing st acc with
  | nil => simp
  | cons h t ih =>
    by_cases ht : h.throws = true <;>
      simp [ht, List.foldl_cons, ih, Nat.add_assoc, Nat.add_comm 1]

theorem fire_event_spec (handlers : List Handler) (st : BridgeStats) :
    fire_event handlers st =
      ({ st with errors := st.errors + (handlers.filter (fun h => h.throws)).length,
                 events_routed := st.events_routed + (handlers.filter (fun h => !h.throws)).length },
       handlers.map Handler.hid) := by
  unfold fire_event
  simpa using fire_event_foldl handlers st []

theorem greet_after_nil (g : ℚ) : greet_after [] g = g := rfl

theorem greet_after_cons (t : ℚ) (ts : List ℚ) (g : ℚ) :
    greet_after (t :: ts) g = greet_after ts (if t - g > GREETING_COOLDOWN then t else g) := rfl

theorem greet_after_append (a b : List ℚ) (g : ℚ) :
    greet_after (a ++ b) g = greet_after b (greet_after a g) := by
  unfold greet_after
  exact List.foldl_append _ _ a b

theorem greet_after_ge (ts : List ℚ) (g : ℚ) : g ≤ greet_after ts g := by
  induction ts generalizing g with
  | nil => simp [greet_after_nil]
  | cons t rest ih =>
    rw [greet_after_cons]
    refine le_trans ?_ (ih _)
    split
    · next h =>
      have hc : (0 : ℚ) ≤ GREETING_COOLDOWN := by norm_num [GREETING_COOLDOWN]
      linarith
    · exact le_refl g

theorem on_room_empty_eq (s : ServiceState) :
    on_room_empty s =
      ({ s with recording_intruder := false, state := { s.state with intruder_active := false } },
       [Event.room_empty, Event.owner_left]) := by
  unfold on_room_empty
  split
  · rfl
  · next h =>
    simp only [Bool.not_eq_true] at h
    cases s
    simp_all

theorem on_owner_entered_eq (now : ℚ) (s : ServiceState) :
    on_owner_entered now s =
      ({ s with recording_intruder := false, last_owner_greeting := if now - s.last_owner_greeting > GREETING_COOLDOWN then now else s.last_owner_greeting },
       [Event.owner_entered s.state.owner_name (decide (now - s.last_owner_greeting > GREETING_COOLDOWN))]) := by
  unfold on_owner_entered
  cases s with
  | mk st ce co cu lg ri ir =>
    dsimp only
    by_cases hr : ri = true <;> simp only [hr, if_true, if_false, Bool.false_eq_true, decide_eq_true_eq] <;> split <;> rfl

theorem on_intruder_detected_eq (n : Nat) (s : ServiceState) :
    on_intruder_detected n s =
      ({ s with recording_intruder := true, intruder_records := s.intruder_records + 1 },
       [Event.intruder_detected n]) := by
  unfold on_intruder_detected
  split
  · next h =>
    cases s
    simp_all
  · rfl

theorem update_counters_state (recognized : List Face) (s : ServiceState) :
    (update_counters recognized s).state = s.state := by
  unfold update_counters
  dsimp only
  repeat' split
  all_goals rfl

theorem update_counters_greeting (recognized : List Face) (s : ServiceState) :
    (update_counters recognized s).last_owner_greeting = s.last_owner_greeting := by
  unfold update_counters
  dsimp only
  repeat' split
  all_goals rfl

theorem update_counters_eq (recognized : List Face) (s : ServiceState) :
    ((update_counters recognized s).consecutive_empty,
     (update_counters recognized s).consecutive_owner,
     (update_counters recognized s).consecutive_unknown) =
      amendedCounterUpdate recognized
        (s.consecutive_empty, s.consecutive_owner, s.consecutive_unknown) := by
  unfold update_counters amendedCounterUpdate classify
  dsimp only
  repeat' split
  all_goals simp_all

theorem transition_empty_eq (recognized : List Face) (now : ℚ) (s : ServiceState)
    (h1 : s.consecutive_empty ≥ STABILITY_COUNT) (h2 : s.state.presence ≠ PresenceState.EMPTY) :
    transition recognized now s =
      ({ s with recording_intruder := false, state := { s.state with presence := PresenceState.EMPTY, owner_detected := false, num_faces := 0, empty_since := now, intruder_active := false } },
       [Event.room_empty, Event.owner_left]) := by
  unfold transition
  dsimp only
  rw [if_pos h1, if_pos h2, on_room_empty_eq]

theorem transition_stay_empty (recognized : List Face) (now : ℚ) (s : ServiceState)
    (h1 : s.consecutive_empty ≥ STABILITY_COUNT) (h2 : s.state.presence = PresenceState.EMPTY) :
    transition recognized now s = (s, []) := by
  unfold transition
  dsimp only
  rw [if_pos h1, if_neg (by simp [h2])]

theorem transition_multiple_eq (recognized : List Face) (now : ℚ) (s : ServiceState)
    (h1 : ¬ s.consecutive_empty ≥ STABILITY_COUNT) (h2 : s.consecutive_owner ≥ STABILITY_COUNT)
    (h3 : recognized.length > 1 ∧ recognized.any is_unknown_face = true) :
    transition recognized now s =
      ({ s with state := { s.state with presence := PresenceState.MULTIPLE_PEOPLE, owner_detected := true, num_faces := recognized.length, last_detection_time := now } }, []) := by
  unfold transition
  dsimp only
  rw [if_neg h1, if_pos h2, if_pos h3]

theorem transition_owner_enter_eq (recognized : List Face) (now : ℚ) (s : ServiceState)
    (h1 : ¬ s.consecutive_empty ≥ STABILITY_COUNT) (h2 : s.consecutive_owner ≥ STABILITY_COUNT)
    (h3 : ¬ (recognized.length > 1 ∧ recognized.any is_unknown_face = true))
    (h4 : s.state.owner_detected = false) :
    transition recognized now s =
      ({ s with recording_intruder := false, last_owner_greeting := if now - s.last_owner_greeting > GREETING_COOLDOWN then now else s.last_owner_greeting, state := { s.state with presence := PresenceState.OWNER_PRESENT, owner_detected := true, owner_name := some (((recognized.find? is_owner_face).map (fun f => f.name.getD OWNER_NAME)).getD OWNER_NAME), num_faces := recognized.length, last_detection_time := now } },
       [Event.owner_entered (some (((recognized.find? is_owner_face).map (fun f => f.name.getD OWNER_NAME)).getD OWNER_NAME)) (decide (now - s.last_owner_greeting > GREETING_COOLDOWN))]) := by
  unfold transition
  dsimp only
  rw [if_neg h1, if_pos h2, if_neg h3, if_pos (by simpa using h4), on_owner_entered_eq]

theorem transition_stay_owner (recognized : List Face) (now : ℚ) (s : ServiceState)
    (h1 : ¬ s.consecutive_empty ≥ STABILITY_COUNT) (h2 : s.consecutive_owner ≥ STABILITY_COUNT)
    (h3 : ¬ (recognized.length > 1 ∧ recognized.any is_unknown_face = true))
    (h4 : s.state.owner_detected = true) :
    transition recognized now s =
      ({ s with state := { s.state with num_faces := recognized.length, last_detection_time := now } }, []) := by
  unfold transition
  dsimp only
  rw [if_neg h1, if_pos h2, if_neg h3, if_neg (by simp [h4])]

theorem transition_intruder_eq (recognized : List Face) (now : ℚ) (s : ServiceState)
    (h1 : ¬ s.consecutive_empty ≥ STABILITY_COUNT) (h2 : ¬ s.consecutive_owner ≥ STABILITY_COUNT)
    (h3 : s.consecutive_unknown ≥ STABILITY_COUNT) (h4 : s.state.owner_detected = false) :
    transition recognized now s =
      ({ s with recording_intruder := true, intruder_records := s.intruder_records + 1, state := { s.state with presence := PresenceState.UNKNOWN_PERSON, num_faces := recognized.length, last_detection_time := now, intruder_active := true } },
       [Event.intruder_detected recognized.length]) := by
  unfold transition
  dsimp only
  rw [if_neg h1, if_neg h2, if_pos h3, if_pos h4, on_intruder_detected_eq]

theorem transition_unknown_suppressed (recognized : List Face) (now : ℚ) (s : ServiceState)
    (h1 : ¬ s.consecutive_empty ≥ STABILITY_COUNT) (h2 : ¬ s.consecutive_owner ≥ STABILITY_COUNT)
    (h3 : s.consecutive_unknown ≥ STABILITY_COUNT) (h4 : s.state.owner_detected = true) :
    transition recognized now s = (s, []) := by
  unfold transition
  dsimp only
  rw [if_neg h1, if_neg h2, if_pos h3, if_neg (by simp [h4])]

theorem transition_idle (recognized : List Face) (now : ℚ) (s : ServiceState)
    (h1 : ¬ s.consecutive_empty ≥ STABILITY_COUNT) (h2 : ¬ s.consecutive_owner ≥ STABILITY_COUNT)
    (h3 : ¬ s.consecutive_unknown ≥ STABILITY_COUNT) :
    transition recognized now s = (s, []) := by
  unfold transition
  dsimp only
  rw [if_neg h1, if_neg h2, if_neg h3]

theorem transition_counters (recognized : List Face) (now : ℚ) (s : ServiceState) :
    (transition recognized now s).1.consecutive_empty = s.consecutive_empty ∧
    (transition recognized now s).1.consecutive_owner = s.consecutive_owner ∧
    (transition recognized now s).1.consecutive_unknown = s.consecutive_unknown := by
  unfold transition
  dsimp only
  repeat' split
  all_goals simp [on_room_empty_eq, on_owner_entered_eq, on_intruder_detected_eq]

theorem on_owner_entered_greeting (t : ℚ) (s : ServiceState) :
    (on_owner_entered t s).1.last_owner_greeting =
      if t - s.last_owner_greeting > GREETING_COOLDOWN then t else s.last_owner_greeting := by
  rw [on_owner_entered_eq]

theorem owner_entered_trace_cons (t : ℚ) (rest : List ℚ) (s : ServiceState) :
    owner_entered_trace (t :: rest) s =
      decide (t - s.last_owner_greeting > GREETING_COOLDOWN) ::
        owner_entered_trace rest (on_owner_entered t s).1 := by
  have h := on_owner_entered_eq t s
  simp [owner_entered_trace, h, greet_flags]

theorem owner_entered_trace_get (ts : List ℚ) (s : ServiceState) (j : Nat) (hj : j < ts.length) :
    (owner_entered_trace ts s).get? j =
      some (decide (ts.get ⟨j, hj⟩ - greet_after (ts.take j) s.last_owner_greeting > GREETING_COOLDOWN)) := by
  induction ts generalizing s j with
  | nil => simp at hj
  | cons t rest ih =>
    rw [owner_entered_trace_cons]
    cases j with
    | zero => simp [greet_after_nil]
    | succ k =>
      have hk : k < rest.length := by simpa using hj
      have htake : ((t :: rest).take (k + 1)) = t :: rest.take k := rfl
      rw [htake, greet_after_cons]
      simp only [List.get?_cons_succ, List.get_cons_succ]
      rw [ih ((on_owner_entered t s).1) k hk, on_owner_entered_greeting]

theorem check_presence_fst (recognized : List Face) (now : ℚ) (s : ServiceState) :
    (check_presence (some recognized) now s).1 =
      (transition recognized now (update_counters recognized s)).1 := rfl

theorem check_presence_snd (recognized : List Face) (now : ℚ) (s : ServiceState) :
    (check_presence (some recognized) now s).2 =
      (if (transition recognized now (update_counters recognized s)).1.state.presence ≠ s.state.presence then
        (transition recognized now (update_counters recognized s)).2 ++ [Event.presence_changed s.state.presence (transition recognized now (update_counters recognized s)).1.state.presence recognized.length]
      else (transition recognized now (update_counters recognized s)).2) := by
  unfold check_presence
  dsimp only
  rw [update_counters_state]

theorem append_log_length (log : List LogEntry) (e : LogEntry) :
    (append_log log e).length = min (log.length + 1) MAX_LOG_SIZE := by
  unfold append_log
  dsimp only
  split
  · next h =>
    simp only [List.length_drop, List.length_append, List.length_singleton, MAX_LOG_SIZE] at h ⊢
    omega
  · next h =>
    simp only [List.length_append, List.length_singleton, MAX_LOG_SIZE] at h ⊢
    omega

theorem append_log_suffix (log : List LogEntry) (e : LogEntry) :
    append_log log e <:+ log ++ [e] := by
  unfold append_log
  dsimp only
  split
  · exact List.drop_suffix _ _
  · exact List.suffix_refl _

theorem append_log_mem (log : List LogEntry) (e : LogEntry) : e ∈ append_log log e := by
  unfold append_log
  dsimp only
  split
  · next h =>
    have hle : (log ++ [e]).length - MAX_LOG_SIZE ≤ log.length := by
      simp only [List.length_append, List.length_singleton, MAX_LOG_SIZE]
      omega
    rw [List.drop_append_of_le_length hle]
    simp
  · simp

theorem tick_event_char (r : List Face) (now : ℚ) (s : ServiceState) :
    ((∃ p c n, Event.presence_changed p c n ∈ (check_presence (some r) now s).2) ↔
        (check_presence (some r) now s).1.state.presence ≠ s.state.presence)
    ∧ (Event.room_empty ∈ (check_presence (some r) now s).2 →
        s.state.presence ≠ PresenceState.EMPTY ∧
          (check_presence (some r) now s).1.state.presence = PresenceState.EMPTY)
    ∧ (∀ nm g, Event.owner_entered nm g ∈ (check_presence (some r) now s).2 →
        s.state.owner_detected = false ∧
          (check_presence (some r) now s).1.state.owner_detected = true)
    ∧ ((check_presence (some r) now s).1.state.presence = PresenceState.EMPTY ∧
          s.state.presence ≠ PresenceState.EMPTY →
        (check_presence (some r) now s).2 =
          [Event.room_empty, Event.owner_left,
            Event.presence_changed s.state.presence PresenceState.EMPTY r.length]
        ∧ (check_presence (some r) now s).1.state.intruder_active = false)
    ∧ (Event.owner_left ∈ (check_presence (some r) now s).2 →
        s.state.presence ≠ PresenceState.EMPTY ∧
          (check_presence (some r) now s).1.state.presence = PresenceState.EMPTY)
    ∧ ((check_presence (some r) now s).1.state.intruder_active = false ∧
          s.state.intruder_active = true →
        s.state.presence ≠ PresenceState.EMPTY ∧
          (check_presence (some r) now s).1.state.presence = PresenceState.EMPTY)
    ∧ ((∃ n, Event.intruder_detected n ∈ (check_presence (some r) now s).2) ↔
        (¬ (update_counters r s).consecutive_empty ≥ STABILITY_COUNT
          ∧ ¬ (update_counters r s).consecutive_owner ≥ STABILITY_COUNT
          ∧ (update_counters r s).consecutive_unknown ≥ STABILITY_COUNT
          ∧ s.state.owner_detected = false)) := by
  have hus := update_counters_state r s
  rw [check_presence_fst, check_presence_snd]
  by_cases h1 : (update_counters r s).consecutive_empty ≥ STABILITY_COUNT
  · by_cases hP : (update_counters r s).state.presence ≠ PresenceState.EMPTY
    · rw [transition_empty_eq r now _ h1 hP]
      rw [hus] at hP
      refine ⟨?_, ?_, ?_, ?_, ?_, ?_, ?_⟩ <;>
        simp [hP, Ne.symm hP, h1]
    · rw [not_not] at hP
      rw [transition_stay_empty r now _ h1 hP]
      rw [hus] at hP
      refine ⟨?_, ?_, ?_, ?_, ?_, ?_, ?_⟩ <;>
        simp [hP, hus, h1]
  · by_cases h2 : (update_counters r s).consecutive_owner ≥ STABILITY_COUNT
    · by_cases h3 : r.length > 1 ∧ r.any is_unknown_face = true
      · rw [transition_multiple_eq r now _ h1 h2 h3]
        refine ⟨?_, ?_, ?_, ?_, ?_, ?_, ?_⟩ <;>
          (try split_ifs) <;> simp_all [hus]
      · by_cases h4 : (update_counters r s).state.owner_detected = false
        · rw [transition_owner_enter_eq r now _ h1 h2 h3 h4]
          rw [hus] at h4
          refine ⟨?_, ?_, ?_, ?_, ?_, ?_, ?_⟩ <;>
            (try split_ifs) <;> simp_all [hus]
        · have h4' : (update_counters r s).state.owner_detected = true := by
            simpa using h4
          rw [transition_stay_owner r now _ h1 h2 h3 h4']
          rw [hus] at h4'
          refine ⟨?_, ?_, ?_, ?_, ?_, ?_, ?_⟩ <;>
            (try split_ifs) <;> simp_all [hus]
    · by_cases h3 : (update_counters r s).consecutive_unknown ≥ STABILITY_COUNT
      · by_cases h4 : (update_counters r s).state.owner_detected = false
        · rw [transition_intruder_eq r now _ h1 h2 h3 h4]
          rw [hus] at h4
          refine ⟨?_, ?_, ?_, ?_, ?_, ?_, ?_⟩ <;>
            (try split_ifs) <;> simp_all [hus]
        · have h4' : (update_counters r s).state.owner_detected = true := by
            simpa using h4
          rw [transition_unknown_suppressed r now _ h1 h2 h3 h4']
          rw [hus] at h4'
          refine ⟨?_, ?_, ?_, ?_, ?_, ?_, ?_⟩ <;>
            (try split_ifs) <;> simp_all [hus]
      · rw [transition_idle r now _ h1 h2 h3]
        refine ⟨?_, ?_, ?_, ?_, ?_, ?_, ?_⟩ <;>
          (try split_ifs) <;> simp_all [hus]

/-! ## Claims -/

/-- C8: on a presence tick where the camera returns no frame, or where the
capture/recognition call raises (the exception being absorbed by the
monitor loop), the tick is skipped entirely: no run-length counter is
updated, the RoomState and every other service field are unchanged, and no
event is emitted; the loop, a total function here, continues. -/
theorem C8_failed_tick_skipped (now : ℚ) (s : ServiceState) :
    monitor_tick TickInput.noFrame now s = (s, []) ∧
    monitor_tick TickInput.failure now s = (s, []) :=
  ⟨rfl, rfl⟩

/-- C5: a device whose last heartbeat is more than 45 seconds old at query
time is reported offline by get_device_state, and by get_all_devices, even
though its stored online flag may still be true; conversely a snapshot
reports online = true exactly when the stored flag is true and the
heartbeat is not stale. -/
theorem C5_stale_device_reported_offline (now : ℚ) (devices : List (String × DeviceState))
    (device_id : String) (dev : DeviceState)
    (hlk : devices.lookup device_id = some dev) :
    (∀ snap, get_device_state now devices device_id = some snap →
        (snap.online = true ↔ dev.online = true ∧ now - dev.last_heartbeat ≤ 45))
    ∧ (now - dev.last_heartbeat > 45 →
        ∃ snap, get_device_state now devices device_id = some snap ∧ snap.online = false)
    ∧ (∀ k d, (k, d) ∈ devices →
        ∃ snap, (k, snap) ∈ get_all_devices now devices
          ∧ (snap.online = true ↔ d.online = true ∧ now - d.last_heartbeat ≤ 45)
          ∧ (now - d.last_heartbeat > 45 → snap.online = false)) := by
  have hgds : get_device_state now devices device_id = some
      { device_id := dev.device_id, type := dev.device_type,
        online := dev.online && !(dev.is_stale now), ip := dev.ip,
        firmware := dev.firmware, uptime := dev.uptime, rssi := dev.rssi,
        free_heap := dev.free_heap, last_heartbeat := dev.last_heartbeat,
        data := dev.data } := by
    unfold get_device_state
    rw [hlk]
  refine ⟨?_, ?_, ?_⟩
  · intro snap hsnap
    rw [hgds] at hsnap
    cases hsnap
    simp [DeviceState.is_stale, not_lt]
  · intro hstale
    exact ⟨_, hgds, by simp [DeviceState.is_stale, hstale]⟩
  · intro k d hkd
    refine ⟨_, List.mem_map_of_mem _ hkd, ?_, ?_⟩
    · simp [DeviceState.is_stale, not_lt]
    · intro hd
      simp [DeviceState.is_stale, hd]

/-- C5 witness: a device whose heartbeat was at time 0, queried at time
100, is reported offline although its stored flag is true. -/
theorem C5_stale_device_reported_offline_witness :
    ∃ snap, get_device_state 100 [("cam-1", camDev)] "cam-1" = some snap ∧ snap.online = false :=
  (C5_stale_device_reported_offline 100 [("cam-1", camDev)] "cam-1" camDev
    (by rfl)).2.1 (by norm_num [camDev])

/-- C6: when several handlers are registered for one event type and an
earlier synchronous handler raises, _fire_event catches the exception,
increments the errors counter, and still invokes every later handler; the
exception never propagates (fire_event is total and returns normally). -/
theorem C6_handler_isolation (handlers : List Handler) (stats : BridgeStats)
    (i j : Fin handlers.length) (hij : (i : Nat) < (j : Nat))
    (hthrows : (handlers.get i).throws = true) :
    (fire_event handlers stats).2 = handlers.map Handler.hid
    ∧ (handlers.get j).hid ∈ (fire_event handlers stats).2
    ∧ stats.errors < (fire_event handlers stats).1.errors := by
  rw [fire_event_spec]
  refine ⟨rfl, List.mem_map_of_mem _ (handlers.get_mem j.1 j.2), ?_⟩
  have hmem : handlers.get i ∈ handlers.filter (fun h => h.throws) :=
    List.mem_filter.mpr ⟨handlers.get_mem i.1 i.2, hthrows⟩
  have hpos : 0 < (handlers.filter (fun h => h.throws)).length :=
    List.length_pos.mpr (List.ne_nil_of_mem hmem)
  simp only []
  omega

/-- C6 witness: with a throwing first handler and a second handler, the
second is still invoked and the errors counter grows. -/
theorem C6_handler_isolation_witness :
    (2 : Nat) ∈ (fire_event [⟨1, true⟩, ⟨2, false⟩] {}).2
    ∧ ({} : BridgeStats).errors < (fire_event [⟨1, true⟩, ⟨2, false⟩] {}).1.errors := by
  have h := C6_handler_isolation [⟨1, true⟩, ⟨2, false⟩] {}
    ⟨0, by decide⟩ ⟨1, by decide⟩ (by decide) (by decide)
  exact ⟨h.2.1, h.2.2⟩

/-- C9: after the bridge processes a message, the log holds at most 500
entries, it is a suffix of the old log plus the new entry (newest kept, in
arrival order, oldest dropped), the new entry is always retained, a
payload that fails JSON decoding is wrapped as a raw entry, and the
received-messages counter is incremented. -/
theorem C9_bounded_message_log (decode : String → Option String) (log : List LogEntry)
    (stats : BridgeStats) (topic payload : String) (now : ℚ) :
    ((on_message_log decode log stats topic payload now).1).length = min (log.length + 1) MAX_LOG_SIZE
    ∧ ((on_message_log decode log stats topic payload now).1).length ≤ MAX_LOG_SIZE
    ∧ (on_message_log decode log stats topic payload now).1 <:+ log ++ [mk_log_entry decode topic payload now]
    ∧ mk_log_entry decode topic payload now ∈ (on_message_log decode log stats topic payload now).1
    ∧ (decode payload = none → (mk_log_entry decode topic payload now).data = MsgData.raw payload)
    ∧ (on_message_log decode log stats topic payload now).2.messages_received = stats.messages_received + 1 := by
  refine ⟨append_log_length _ _, ?_, append_log_suffix _ _, append_log_mem _ _, ?_, rfl⟩
  · exact le_trans (le_of_eq (append_log_length log (mk_log_entry decode topic payload now)))
      (Nat.min_le_right _ _)
  · intro hdec
    simp [mk_log_entry, hdec]

/-- C9 witness: a message whose payload does not decode is wrapped raw and
the log stays within its bound. -/
theorem C9_bounded_message_log_witness :
    ((on_message_log (fun _ => none) [] {} "t" "p" 0).1).length ≤ MAX_LOG_SIZE
    ∧ (mk_log_entry (fun _ => none) "t" "p" 0).data = MsgData.raw "p" := by
  have h := C9_bounded_message_log (fun _ => none) [] {} "t" "p" 0
  exact ⟨h.2.1, h.2.2.2.2.1 rfl⟩

/-- C4 counterexample: starting from two unknown-only ticks (so
consecutiveUnknown = 2), a tick holding both an owner face and an unknown
face increments consecutiveOwner but leaves consecutiveUnknown at 2 —
neither incremented nor reset to zero — refuting the claim that on every
tick exactly one counter is incremented and the other two are reset. -/
theorem C4_counterexample :
    (run_ticks [tickU, tickU] {}).1.consecutive_unknown = 2
    ∧ (monitor_tick tickOU.1 tickOU.2 (run_ticks [tickU, tickU] {}).1).1.consecutive_empty = 0
    ∧ (monitor_tick tickOU.1 tickOU.2 (run_ticks [tickU, tickU] {}).1).1.consecutive_owner = 1
    ∧ (monitor_tick tickOU.1 tickOU.2 (run_ticks [tickU, tickU] {}).1).1.consecutive_unknown = 2 := by
  decide

/-- C4 (amended): on every tick the counters are updated as follows — an
empty tick increments consecutiveEmpty and resets the other two; a tick
with an owner face increments consecutiveOwner and resets
consecutiveEmpty, but resets consecutiveUnknown only when no unknown face
is present (otherwise it is preserved); a tick with an unknown face and no
owner increments consecutiveUnknown and resets the other two; a tick with
only recognized non-owner faces updates no counter at all. -/
theorem C4_amended_counter_update (recognized : List Face) (now : ℚ) (s : ServiceState) :
    (((check_presence (some recognized) now s).1).consecutive_empty,
     ((check_presence (some recognized) now s).1).consecutive_owner,
     ((check_presence (some recognized) now s).1).consecutive_unknown) =
      amendedCounterUpdate recognized
        (s.consecutive_empty, s.consecutive_owner, s.consecutive_unknown) := by
  rw [check_presence_fst]
  obtain ⟨hce, hco, hcu⟩ := transition_counters recognized now (update_counters recognized s)
  rw [hce, hco, hcu]
  exact update_counters_eq recognized s

/-- C3 counterexample: over the run unknown, unknown, owner+unknown,
unknown (classifications unknownC, unknownC, ownerC, unknownC — no
classification holds for three consecutive ticks), presence still changes
from EMPTY to UNKNOWN_PERSON on the fourth tick, because the
owner+unknown tick preserved consecutiveUnknown instead of resetting it:
the sandwiched tick of another kind did not prevent the transition. -/
theorem C3_counterexample :
    (run_ticks [tickU, tickU, tickOU] {}).1.state.presence = PresenceState.EMPTY
    ∧ (run_ticks [tickU, tickU, tickOU, tickU] {}).1.state.presence = PresenceState.UNKNOWN_PERSON
    ∧ List.map classify [[unknownFace], [unknownFace], [ownerFace, unknownFace], [unknownFace]] =
        [TickClass.unknownC, TickClass.unknownC, TickClass.ownerC, TickClass.unknownC] := by
  decide

/-- C3 (amended): RoomState.presence changes on a tick only when one of
the three run-length counters has reached stabilityCount (3) after the
tick's update; the counters, however, do not always require strictly
consecutive identical classifications, because a tick with both an owner
and an unknown face preserves consecutiveUnknown and a tick with only
recognized non-owner faces preserves all three counters, so a single such
sandwiched tick does not reset the run and cannot prevent a transition. -/
theorem C3_amended_debounce (input : TickInput) (now : ℚ) (s : ServiceState)
    (hchange : (monitor_tick input now s).1.state.presence ≠ s.state.presence) :
    STABILITY_COUNT ≤ (monitor_tick input now s).1.consecutive_empty
    ∨ STABILITY_COUNT ≤ (monitor_tick input now s).1.consecutive_owner
    ∨ STABILITY_COUNT ≤ (monitor_tick input now s).1.consecutive_unknown := by
  cases input with
  | noFrame => exact absurd rfl hchange
  | failure => exact absurd rfl hchange
  | frame r =>
    simp only [monitor_tick] at hchange ⊢
    rw [check_presence_fst] at hchange ⊢
    obtain ⟨hce, hco, hcu⟩ := transition_counters r now (update_counters r s)
    rw [hce, hco, hcu]
    by_cases h1 : (update_counters r s).consecutive_empty ≥ STABILITY_COUNT
    · exact Or.inl h1
    by_cases h2 : (update_counters r s).consecutive_owner ≥ STABILITY_COUNT
    · exact Or.inr (Or.inl h2)
    by_cases h3 : (update_counters r s).consecutive_unknown ≥ STABILITY_COUNT
    · exact Or.inr (Or.inr h3)
    exfalso
    apply hchange
    rw [transition_idle r now _ h1 h2 h3]
    exact congrArg RoomState.presence (update_counters_state r s)

/-- C3 witness: a third consecutive unknown tick changes presence, and its
unknown counter has indeed reached the threshold. -/
theorem C3_amended_debounce_witness :
    STABILITY_COUNT ≤ (monitor_tick tickU.1 tickU.2 (run_ticks [tickU, tickU] {}).1).1.consecutive_empty
    ∨ STABILITY_COUNT ≤ (monitor_tick tickU.1 tickU.2 (run_ticks [tickU, tickU] {}).1).1.consecutive_owner
    ∨ STABILITY_COUNT ≤ (monitor_tick tickU.1 tickU.2 (run_ticks [tickU, tickU] {}).1).1.consecutive_unknown :=
  C3_amended_debounce tickU.1 tickU.2 (run_ticks [tickU, tickU] {}).1 (by decide)

/-- C1 counterexample: after three unknown-only ticks the machine is in
UNKNOWN_PERSON with consecutiveUnknown = 3; a fourth tick in which an
owner face is recognized (ownerFound is true) together with an unknown
face still emits intruder_detected on that very tick, refuting the claim
that ownerFound suppresses intruder_detected on the same tick. -/
theorem C1_counterexample :
    List.any [ownerFace, unknownFace] is_owner_face = true
    ∧ Event.intruder_detected 2 ∈
        (monitor_tick tickOU.1 tickOU.2 (run_ticks [tickU, tickU, tickU] {}).1).2 := by
  decide

/-- C1 (amended): if ownerFound is true on a tick and the unknown
run-length counter carried into the tick is still below stabilityCount,
then intruder_detected is not emitted on that tick; the suppression can
fail only when a previously accumulated consecutiveUnknown ≥ 3 survives
into an owner tick (a tick with both owner and unknown faces preserves
the unknown counter rather than resetting it). -/
theorem C1_amended_intruder_suppression (recognized : List Face) (now : ℚ) (s : ServiceState)
    (howner : recognized.any is_owner_face = true)
    (hcu : s.consecutive_unknown < STABILITY_COUNT) :
    ∀ n, Event.intruder_detected n ∉ (check_presence (some recognized) now s).2 := by
  intro n
  have hne : ¬ recognized.length = 0 := by
    cases recognized with
    | nil => simp at howner
    | cons a l => simp
  have hclass : classify recognized = TickClass.ownerC := by
    unfold classify
    rw [if_neg hne, if_pos howner]
  have htrip := update_counters_eq recognized s
  unfold amendedCounterUpdate at htrip
  rw [hclass] at htrip
  have hce : (update_counters recognized s).consecutive_empty = 0 := by
    have := congrArg Prod.fst htrip
    simpa using this
  have hcu2 : (update_counters recognized s).consecutive_unknown < STABILITY_COUNT := by
    have h22 := congrArg (fun p => p.2.2) htrip
    simp only at h22
    rw [h22]
    split
    · exact hcu
    · norm_num [STABILITY_COUNT]
  have hE : ¬ (update_counters recognized s).consecutive_empty ≥ STABILITY_COUNT := by
    rw [hce]
    norm_num [STABILITY_COUNT]
  have hU : ¬ (update_counters recognized s).consecutive_unknown ≥ STABILITY_COUNT :=
    not_le.mpr hcu2
  rw [check_presence_snd]
  by_cases h2 : (update_counters recognized s).consecutive_owner ≥ STABILITY_COUNT
  · by_cases h3 : recognized.length > 1 ∧ recognized.any is_unknown_face = true
    · rw [transition_multiple_eq recognized now _ hE h2 h3]
      split <;> simp
    · by_cases h4 : (update_counters recognized s).state.owner_detected = false
      · rw [transition_owner_enter_eq recognized now _ hE h2 h3 h4]
        split_ifs <;> simp
      · have h4' : (update_counters recognized s).state.owner_detected = true := by
          simpa using h4
        rw [transition_stay_owner recognized now _ hE h2 h3 h4']
        split <;> simp
  · rw [transition_idle recognized now _ hE h2 hU]
    split <;> simp

/-- C1 witness: a single owner-only tick from the initial state emits no
intruder_detected event. -/
theorem C1_amended_intruder_suppression_witness :
    Event.intruder_detected 1 ∉ (check_presence (some [ownerFace]) 0 {}).2 :=
  C1_amended_intruder_suppression [ownerFace] 0 {} (by decide) (by decide) 1

/-- C2 counterexample: feeding four unknown-only ticks, the machine
transitions into UNKNOWN_PERSON on the third tick and stays there, yet
intruder_detected is emitted again on the fourth tick (whose entire event
list is that one event) — the event is emitted once per qualifying tick,
not exactly once per settled transition. -/
theorem C2_counterexample :
    (run_ticks [tickU, tickU, tickU] {}).1.state.presence = PresenceState.UNKNOWN_PERSON
    ∧ (run_ticks [tickU, tickU, tickU, tickU] {}).1.state.presence = PresenceState.UNKNOWN_PERSON
    ∧ Event.intruder_detected 1 ∈ ((run_ticks [tickU, tickU, tickU] {}).2.getD 2 [])
    ∧ (run_ticks [tickU, tickU, tickU, tickU] {}).2.getD 3 [] = [Event.intruder_detected 1] := by
  decide

/-- C2 (amended): per tick, presence_changed is emitted exactly when the
tick changes RoomState.presence, room_empty only on a tick that changes
presence into EMPTY, and owner_entered only on a tick that flips
ownerDetected from false to true — so each of these three is emitted
exactly once per settled transition and never again while the machine
stays in the state; intruder_detected, however, is emitted on every tick
whose updated counters satisfy the unknown-branch guard
(consecutiveEmpty < 3, consecutiveOwner < 3, consecutiveUnknown ≥ 3,
ownerDetected false), which recurs on consecutive ticks while the machine
remains in UNKNOWN_PERSON. -/
theorem C2_amended_event_emission (r : List Face) (now : ℚ) (s : ServiceState) :
    ((∃ p c n, Event.presence_changed p c n ∈ (check_presence (some r) now s).2) ↔
        (check_presence (some r) now s).1.state.presence ≠ s.state.presence)
    ∧ (Event.room_empty ∈ (check_presence (some r) now s).2 →
        s.state.presence ≠ PresenceState.EMPTY ∧
          (check_presence (some r) now s).1.state.presence = PresenceState.EMPTY)
    ∧ (∀ nm g, Event.owner_entered nm g ∈ (check_presence (some r) now s).2 →
        s.state.owner_detected = false ∧
          (check_presence (some r) now s).1.state.owner_detected = true)
    ∧ ((∃ n, Event.intruder_detected n ∈ (check_presence (some r) now s).2) ↔
        (¬ (update_counters r s).consecutive_empty ≥ STABILITY_COUNT
          ∧ ¬ (update_counters r s).consecutive_owner ≥ STABILITY_COUNT
          ∧ (update_counters r s).consecutive_unknown ≥ STABILITY_COUNT
          ∧ s.state.owner_detected = false)) := by
  obtain ⟨c1, c2, c3, _, _, _, c7⟩ := tick_event_char r now s
  exact ⟨c1, c2, c3, c7⟩

/-- C10: every transition into EMPTY emits exactly room_empty, then
owner_left, then the presence_changed event — regardless of whether an
owner was ever present; owner_left is emitted on no other kind of tick;
and a tick that flips intruderActive from true to false is necessarily
such a transition (the transition itself always leaves intruderActive
false). -/
theorem C10_empty_transition (r : List Face) (now : ℚ) (s : ServiceState) :
    ((check_presence (some r) now s).1.state.presence = PresenceState.EMPTY ∧
        s.state.presence ≠ PresenceState.EMPTY →
      (check_presence (some r) now s).2 =
        [Event.room_empty, Event.owner_left,
          Event.presence_changed s.state.presence PresenceState.EMPTY r.length]
      ∧ (check_presence (some r) now s).1.state.intruder_active = false)
    ∧ (Event.owner_left ∈ (check_presence (some r) now s).2 →
        s.state.presence ≠ PresenceState.EMPTY ∧
          (check_presence (some r) now s).1.state.presence = PresenceState.EMPTY)
    ∧ ((check_presence (some r) now s).1.state.intruder_active = false ∧
          s.state.intruder_active = true →
        s.state.presence ≠ PresenceState.EMPTY ∧
          (check_presence (some r) now s).1.state.presence = PresenceState.EMPTY) := by
  obtain ⟨_, _, _, c4, c5, c6, _⟩ := tick_event_char r now s
  exact ⟨c4, c5, c6⟩

/-- C2 witness: on the tick that completes three empty frames after an
intruder period, room_empty is emitted and the machine indeed moves from a
non-EMPTY state into EMPTY. -/
theorem C2_amended_event_emission_witness :
    (run_ticks [tickU, tickU, tickU, tickE, tickE] {}).1.state.presence ≠ PresenceState.EMPTY
    ∧ (check_presence (some []) 0 (run_ticks [tickU, tickU, tickU, tickE, tickE] {}).1).1.state.presence = PresenceState.EMPTY :=
  (C2_amended_event_emission [] 0 (run_ticks [tickU, tickU, tickU, tickE, tickE] {}).1).2.1 (by decide)

/-- C10 witness: the concrete transition into EMPTY after an intruder
period emits room_empty, owner_left and presence_changed in that order and
clears intruderActive. -/
theorem C10_empty_transition_witness :
    (check_presence (some []) 0 (run_ticks [tickU, tickU, tickU, tickE, tickE] {}).1).2 =
      [Event.room_empty, Event.owner_left,
        Event.presence_changed PresenceState.UNKNOWN_PERSON PresenceState.EMPTY 0]
    ∧ (check_presence (some []) 0 (run_ticks [tickU, tickU, tickU, tickE, tickE] {}).1).1.state.intruder_active = false :=
  (C10_empty_transition [] 0 (run_ticks [tickU, tickU, tickU, tickE, tickE] {}).1).1 (by decide)

/-- C7: in a run of _on_owner_entered calls at the listed times, if the
event at position i carried shouldGreet = true and the event at a later
position j occurs within greetingCooldownSeconds (1800) of it, then event
j carries shouldGreet = false; moreover lastGreetingTime is updated only
by an event that carries shouldGreet = true (an event carrying false
leaves it unchanged). -/
theorem C7_greeting_cooldown (ts : List ℚ) (s : ServiceState) (i j : Nat)
    (hi : i < ts.length) (hj : j < ts.length) (hij : i < j)
    (hflag : (owner_entered_trace ts s).get? i = some true)
    (hwithin : ts.get ⟨j, hj⟩ - ts.get ⟨i, hi⟩ ≤ GREETING_COOLDOWN) :
    (owner_entered_trace ts s).get? j = some false
    ∧ (∀ (t : ℚ) (u : ServiceState),
        (∃ nm, Event.owner_entered nm false ∈ (on_owner_entered t u).2) →
        (on_owner_entered t u).1.last_owner_greeting = u.last_owner_greeting) := by
  constructor
  · simp only [List.get_eq_getElem] at hwithin
    rw [owner_entered_trace_get ts s i hi] at hflag
    simp only [List.get_eq_getElem] at hflag
    have hflag2 : ts[i] - greet_after (ts.take i) s.last_owner_greeting > GREETING_COOLDOWN := by
      simpa using hflag
    have hstep : greet_after (ts.take (i + 1)) s.last_owner_greeting = ts[i] := by
      rw [List.take_succ, List.getElem?_eq_getElem hi, greet_after_append]
      simp only [Option.toList_some]
      rw [greet_after_cons, greet_after_nil, if_pos hflag2]
    have hdecomp : ts.take j = ts.take (i + 1) ++ ((ts.drop (i + 1)).take (j - (i + 1))) := by
      rw [← List.take_add]
      congr 1
      omega
    have hge : ts[i] ≤ greet_after (ts.take j) s.last_owner_greeting := by
      rw [hdecomp, greet_after_append, hstep]
      exact greet_after_ge _ _
    have hnot : ¬ (ts[j] - greet_after (ts.take j) s.last_owner_greeting > GREETING_COOLDOWN) := by
      rw [not_lt]
      linarith
    rw [owner_entered_trace_get ts s j hj]
    simp only [List.get_eq_getElem]
    simp [hnot]
  · rintro t u ⟨nm, hmem⟩
    rw [on_owner_entered_eq] at hmem
    simp only [List.mem_singleton, Event.owner_entered.injEq] at hmem
    have hdf : decide (t - u.last_owner_greeting > GREETING_COOLDOWN) = false := hmem.2.symm
    rw [on_owner_entered_greeting, if_neg (by simpa using hdf)]

/-- C7 witness: with owner_entered events at times 2000 and 2500 (within
the 1800 s cooldown of each other), the first carries shouldGreet = true
and the second carries shouldGreet = false. -/
theorem C7_greeting_cooldown_witness :
    (owner_entered_trace [2000, 2500] ({} : ServiceState)).get? 1 = some false :=
  (C7_greeting_cooldown [2000, 2500] {} 0 1 (by decide) (by decide) (by decide)
    (by
      rw [owner_entered_trace_cons]
      simp only [List.get?_cons_zero, Option.some.injEq, decide_eq_true_eq]
      norm_num [GREETING_COOLDOWN])
    (by norm_num [GREETING_COOLDOWN])).1

end VisionAi
